import Mathlib

/-!
Shallow embedding of the request-serving core of the imgproxy server
(`src/server.go`): the request lifecycle pipeline `ServeHTTP`, the
admission semaphore built in `newHTTPHandler`, the auth gate
`checkSecret`, the response encoders `respondWithImage` /
`respondWithError` / `respondWithOptions` / `respondWithNotModified`,
and `contentDisposition`.

Conventions of the embedding:
- Go byte strings are Lean `String`s; image payloads are `List Nat`
  (byte lists).
- The HTTP response writer is a `Response` record accumulating a header
  map (a function from header name to optional value, mirroring
  `rw.Header().Set`), a status and a body.
- Panics are explicit: the body of `ServeHTTP` returns an optional
  `PanicVal`; the deferred `recover()` boundary is `recoverWrap`.
- External collaborators (`parsePath`, `downloadImage`, `processImage`,
  the deadline clock, `gzipData`) are an oracle record `Collab` fixing
  their results for one run, since they live outside this file's source.
- The side effects relevant to the claims (semaphore lock/unlock, timer
  start/cancel, download cancel, timeout checks, buffer pool usage) are
  recorded as an `Event` trace, in the order the source performs them,
  deferred calls running in LIFO order on every exit path as in Go.
-/

/-- Image formats known to the server (`imageType` in the source). -/
inductive ImageType
  | jpeg
  | png
  | webp
  | gif
  | ico
deriving DecidableEq, Repr

/-- Typed imgproxy error: machine status code, internal message, public
message (`imgproxyError` in the source). -/
structure ImgproxyError where
  statusCode : Nat
  message : String
  publicMessage : String
deriving DecidableEq, Repr

/-- Constructor for typed errors (`newError` in the source). -/
def newError (status : Nat) (msg pub : String) : ImgproxyError :=
  { statusCode := status, message := msg, publicMessage := pub }

/-- Modelled from the spec: `newUnexpectedError` is code of this
repository not under `src/`; per the spec an unknown error is wrapped
into a generic 500-class error with the fixed public message
"Internal error" and a bounded diagnostic context depth. -/
def newUnexpectedError (msg : String) (depth : Nat) : ImgproxyError :=
  newError 500 (msg ++ " (context depth " ++ toString depth ++ ")") "Internal error"

/-- Modelled from the spec: `checkTimeout` is code of this repository
not under `src/`; per the spec, on deadline expiry the pipeline surfaces
a distinct `Timeout` error. -/
def errTimeout : ImgproxyError := newError 503 "Timeout" "Timeout"

/-- Source: `errInvalidMethod = newError(422, "Invalid request method", "Method doesn't allowed")`. -/
def errInvalidMethod : ImgproxyError :=
  newError 422 "Invalid request method" "Method doesn't allowed"

/-- Source: `errInvalidSecret = newError(403, "Invalid secret", "Forbidden")`. -/
def errInvalidSecret : ImgproxyError :=
  newError 403 "Invalid secret" "Forbidden"

/-- Source constant `healthPath`. -/
def healthPath : String := "/health"

/-- Source constant `contextDispositionFilenameFallback`. -/
def contextDispositionFilenameFallback : String := "image"

/-- Bytes of a Go string. -/
def strBytes (s : String) : List Nat := s.toList.map Char.toNat

/-- Source: `imgproxyIsRunningMsg = []byte("imgproxy is running")`. -/
def imgproxyIsRunningMsg : List Nat := strBytes "imgproxy is running"

/-- Source map `mimes`. -/
def mimes : ImageType → String
  | ImageType.jpeg => "image/jpeg"
  | ImageType.png => "image/png"
  | ImageType.webp => "image/webp"
  | ImageType.gif => "image/gif"
  | ImageType.ico => "image/x-icon"

/-- Per-format filename extension used by the source map
`contentDispositionsFmt` (the `%s.jpg` etc. format strings). -/
def contentDispositionExt : ImageType → String
  | ImageType.jpeg => "jpg"
  | ImageType.png => "png"
  | ImageType.webp => "webp"
  | ImageType.gif => "gif"
  | ImageType.ico => "ico"

/-- Source map `contentDispositionsFmt`, applied to a filename: the
`fmt.Sprintf` of `inline; filename="%s.<ext>"`. -/
def contentDispositionsFmt (t : ImageType) (name : String) : String :=
  "inline; filename=\"" ++ name ++ "." ++ contentDispositionExt t ++ "\""

/-- Configuration surface consumed by `server.go` (the `conf` global). -/
structure Config where
  bind : String := ""
  maxClients : Nat := 0
  concurrency : Nat := 2
  readTimeout : Nat := 5
  writeTimeout : Nat := 10
  ttl : Nat := 3600
  secret : String := ""
  allowOrigin : String := ""
  gzipCompression : Nat := 0
  etagEnabled : Bool := false
deriving DecidableEq, Repr

/-- The parts of the incoming `http.Request` the pipeline reads. -/
structure Request where
  method : String
  requestURI : String
  authorization : String := ""
  acceptEncoding : String := ""
  ifNoneMatch : String := ""
deriving DecidableEq, Repr

/-- The response writer state: header map, status line, body. -/
structure Response where
  headers : String → Option String
  status : Option Nat
  body : List Nat

/-- Initial response state for a request. -/
def emptyResponse : Response :=
  { headers := fun _ => none, status := none, body := [] }

/-- Mirror of `rw.Header().Set(name, value)`. -/
def setHeader (resp : Response) (name value : String) : Response :=
  { resp with headers := fun n => if n = name then some value else resp.headers n }

/-- Header lookup on the response state. -/
def getHeader (resp : Response) (name : String) : Option String :=
  resp.headers name

/-- Source `writeCORS`: sets the CORS headers when `conf.AllowOrigin`
is nonempty. -/
def writeCORS (conf : Config) (resp : Response) : Response :=
  if conf.allowOrigin.length > 0 then
    setHeader (setHeader resp "Access-Control-Allow-Origin" conf.allowOrigin)
      "Access-Control-Allow-Methods" "GET, OPTIONs"
  else resp

/-- Source `prepareAuthHeaderMust`: the expected `Authorization`
value, `[]byte(fmt.Sprintf("Bearer %s", conf.Secret))`. -/
def prepareAuthHeaderMust (conf : Config) : String :=
  "Bearer " ++ conf.secret

/-- Source `checkSecret`: pass when no secret is configured, else a
constant-time byte comparison of the `Authorization` header against
`Bearer <secret>` (modelled as byte-string equality, which is what
`subtle.ConstantTimeCompare(...) == 1` decides). -/
def checkSecret (conf : Config) (r : Request) : Bool :=
  if conf.secret = "" then true
  else r.authorization == prepareAuthHeaderMust conf

/-- Source `respondWithError`: write the error's status code and its
public message as the body (already-set headers are flushed with the
status line by `rw.WriteHeader`, so they are kept). -/
def respondWithError (resp : Response) (e : ImgproxyError) : Response :=
  { resp with status := some e.statusCode, body := strBytes e.publicMessage }

/-- Source `respondWithOptions`: status 200, no body. -/
def respondWithOptions (resp : Response) : Response :=
  { resp with status := some 200, body := [] }

/-- Source `respondWithNotModified`: status 304, no body. -/
def respondWithNotModified (resp : Response) : Response :=
  { resp with status := some 304, body := [] }

/-- ASCII control characters, which make Go's `net/url.Parse` fail. -/
def isCtl (c : Char) : Bool := c.toNat < 0x20 || c.toNat == 0x7f

/-- Whether `sub` is a prefix of the character list. -/
def listStartsWith : List Char → List Char → Bool
  | _, [] => true
  | [], _ :: _ => false
  | a :: as, b :: bs => a == b && listStartsWith as bs

/-- Whether `sub` occurs as a contiguous sublist. -/
def listContainsSub (sub : List Char) : List Char → Bool
  | [] => sub.isEmpty
  | a :: as => listStartsWith (a :: as) sub || listContainsSub sub as

/-- The prefix of a character list up to (excluding) the first
occurrence of `ch`. -/
def takeUntilChar (ch : Char) : List Char → List Char
  | [] => []
  | a :: as => if a == ch then [] else a :: takeUntilChar ch as

/-- The remainder after the first occurrence of (nonempty) `sub`, if
any. -/
def afterSub (sub : List Char) : List Char → Option (List Char)
  | [] => none
  | a :: as =>
    if listStartsWith (a :: as) sub then some ((a :: as).drop sub.length)
    else afterSub sub as

/-- Modelled from Go's standard library `net/url.Parse` (an external
collaborator of `contentDisposition`): extraction of the `.Path`
component of a URL. Parsing fails (returns `none`) on ASCII control
characters; otherwise the fragment and query are stripped and, for an
absolute URL containing `://`, the path is the suffix of the authority
part starting at its first `/` (empty when there is none). -/
def urlParsePath (s : String) : Option String :=
  if s.toList.any isCtl then none
  else
    let beforeFrag := takeUntilChar '#' s.toList
    let beforeQuery := takeUntilChar '?' beforeFrag
    match afterSub "://".toList beforeQuery with
    | some rest => some (String.mk (rest.dropWhile (fun c => !(c == '/'))))
    | none => some (String.mk beforeQuery)

/-- The file part of `path/filepath.Split`: everything after the last
slash. -/
def baseName (p : String) : String :=
  String.mk ((p.toList.reverse.takeWhile (fun c => !(c == '/'))).reverse)

/-- Go's `path/filepath.Ext` on a bare filename: the suffix beginning at
the final dot, empty when there is no dot. -/
def goExt (name : String) : String :=
  let revTail := name.toList.reverse.takeWhile (fun c => !(c == '.'))
  if revTail.length == name.toList.length then ""
  else String.mk ('.' :: revTail.reverse)

/-- Go's `strings.TrimSuffix`. -/
def trimSuffix (s suffix : String) : String :=
  if suffix.toList.isSuffixOf s.toList then
    String.mk (s.toList.take (s.toList.length - suffix.toList.length))
  else s

/-- Go's `strings.Contains`. -/
def goStringContains (s sub : String) : Bool :=
  listContainsSub sub.toList s.toList

/-- Source `contentDisposition`: parse the source image URL; on parse
failure or an empty last path segment use the fallback filename, else
the last segment with its extension stripped, formatted per the target
image type. -/
def contentDisposition (imageURL : String) (imgtype : ImageType) : String :=
  match urlParsePath imageURL with
  | none => contentDispositionsFmt imgtype contextDispositionFilenameFallback
  | some path =>
    let filename := baseName path
    if filename = "" then
      contentDispositionsFmt imgtype contextDispositionFilenameFallback
    else
      contentDispositionsFmt imgtype (trimSuffix filename (goExt filename))

/-- Modelled: the `http.TimeFormat` rendering of an abstract clock
value, used only for the `Expires` header. -/
def httpTime (t : Nat) : String := "t+" ++ toString t

/-- Processing options parsed from the request path; only the target
format and an opaque parameter blob matter to this layer. -/
structure ProcessingOptions where
  format : ImageType
  params : String := ""
deriving DecidableEq, Repr

/-- Failure values that can reach the deferred `recover()` in
`ServeHTTP`: a typed `*imgproxyError`, some other Go `error` value, or
a panic value that is not an `error` at all. -/
inductive PanicVal
  | ipErr (e : ImgproxyError)
  | goErr (msg : String)
  | nonError (msg : String)
deriving DecidableEq, Repr

/-- Oracle for the external collaborators of one run of `ServeHTTP`:
the results of `parsePath`, `downloadImage` and `processImage`, the
deadline clock (`elapsed i` is whether the per-request deadline has
already elapsed at instant `i`; instant 1, 2, 3 are the three
`checkTimeout` call sites and instant 0 is the point just before the
download call), the `gzipData` compressor, and the current time. -/
structure Collab where
  parseResult : Except PanicVal (ProcessingOptions × String)
  downloadResult : Except PanicVal (List Nat)
  processResult : Except PanicVal (List Nat)
  elapsed : Nat → Bool := fun _ => false
  gzip : List Nat → List Nat := fun l => l
  now : Nat := 0

/-- Observable side effects of one run, in program order; deferred
calls appear where Go runs them (LIFO, on every exit path). -/
inductive Event
  | lock
  | unlock
  | startTimer
  | timerCancel
  | parsePathEv
  | downloadEv
  | downloadCancel
  | checkTimeoutEv
  | setETagEv
  | processEv
  | respondEv
  | bufGet
  | bufReset
  | bufPut
deriving DecidableEq, Repr

/-- Source `respondWithImage` (lines 131-159): sets `Expires`,
`Cache-Control`, `Content-Type` and `Content-Disposition`; when gzip
compression is enabled and the client accepts gzip, compresses into a
pooled buffer (get, reset before use, deferred put after use) and sets
`Content-Encoding: gzip` with the compressed length as
`Content-Length`; otherwise writes the raw bytes with their length. -/
def respondWithImage (conf : Config) (c : Collab) (r : Request)
    (po : ProcessingOptions) (imageURL : String) (resp : Response)
    (data : List Nat) : Response × List Event :=
  let resp := setHeader resp "Expires" (httpTime (c.now + conf.ttl))
  let resp := setHeader resp "Cache-Control" ("max-age=" ++ toString conf.ttl ++ ", public")
  let resp := setHeader resp "Content-Type" (mimes po.format)
  let resp := setHeader resp "Content-Disposition" (contentDisposition imageURL po.format)
  if 0 < conf.gzipCompression ∧ goStringContains r.acceptEncoding "gzip" = true then
    let compressed := c.gzip data
    let resp := setHeader resp "Content-Encoding" "gzip"
    let resp := setHeader resp "Content-Length" (toString compressed.length)
    ({ resp with status := some 200, body := compressed },
      [Event.bufGet, Event.bufReset, Event.bufPut])
  else
    let resp := setHeader resp "Content-Length" (toString data.length)
    ({ resp with status := some 200, body := data }, [])

/-- Modelled from the spec: `calcETag` is code of this repository not
under `src/`; per the spec it computes a strong validator over the
response-determining inputs (source bytes and processing options), so
it is a pure function of those two values. -/
def calcETag (data : List Nat) (po : ProcessingOptions) : String :=
  "\"" ++ toString data ++ "/" ++ mimes po.format ++ "/" ++ po.params ++ "\""

/-- The ETag block of `ServeHTTP` (lines 285-293): when enabled,
compute the ETag, set the `ETag` header, and compare against
`If-None-Match`; the Bool of the result is whether the request was
answered 304 (terminal). -/
def etagBranch (conf : Config) (r : Request) (po : ProcessingOptions)
    (data : List Nat) (resp : Response) : Response × List Event × Bool :=
  if conf.etagEnabled = true then
    let eTag := calcETag data po
    let resp := setHeader resp "ETag" eTag
    if eTag = r.ifNoneMatch then
      (respondWithNotModified resp, [Event.setETagEv], true)
    else
      (resp, [Event.setETagEv], false)
  else
    (resp, [], false)

/-- `ServeHTTP` from the first `checkTimeout` (line 283, right after
the download) to the end: checkTimeout; ETag block; checkTimeout;
processImage; checkTimeout; respondWithImage. The caller appends the
deferred `downloadcancel`, `timeoutCancel` and `unlock` events. -/
def pipelineAfterDownload (conf : Config) (c : Collab) (r : Request)
    (po : ProcessingOptions) (imageURL : String) (data : List Nat)
    (resp : Response) : Response × List Event × Option PanicVal :=
  if c.elapsed 1 = true then
    (resp, [Event.checkTimeoutEv], some (PanicVal.ipErr errTimeout))
  else
    let eb := etagBranch conf r po data resp
    if eb.2.2 = true then
      (eb.1, Event.checkTimeoutEv :: eb.2.1, none)
    else if c.elapsed 2 = true then
      (eb.1, Event.checkTimeoutEv :: eb.2.1 ++ [Event.checkTimeoutEv],
        some (PanicVal.ipErr errTimeout))
    else
      match c.processResult with
      | Except.error pv =>
        (eb.1, Event.checkTimeoutEv :: eb.2.1 ++ [Event.checkTimeoutEv, Event.processEv],
          some pv)
      | Except.ok imageData =>
        if c.elapsed 3 = true then
          (eb.1,
            Event.checkTimeoutEv :: eb.2.1 ++
              [Event.checkTimeoutEv, Event.processEv, Event.checkTimeoutEv],
            some (PanicVal.ipErr errTimeout))
        else
          ((respondWithImage conf c r po imageURL eb.1 imageData).1,
            Event.checkTimeoutEv :: eb.2.1 ++
              [Event.checkTimeoutEv, Event.processEv, Event.checkTimeoutEv] ++
              (respondWithImage conf c r po imageURL eb.1 imageData).2 ++
              [Event.respondEv],
            none)

/-- The body of `ServeHTTP` (everything inside the deferred-recover
boundary): CORS; OPTIONS shortcut; method check; auth gate; health
shortcut; then `lock`/`startTimer`/`parsePath`/`downloadImage` and
`pipelineAfterDownload`, with the deferred `downloadcancel`,
`timeoutCancel` and `unlock` recorded in LIFO order on every exit. -/
def serveHTTPBody (conf : Config) (c : Collab) (r : Request) :
    Response × List Event × Option PanicVal :=
  let resp := writeCORS conf emptyResponse
  if r.method = "OPTIONS" then
    (respondWithOptions resp, [], none)
  else if r.method = "GET" then
    if checkSecret conf r = true then
      if r.requestURI = healthPath then
        ({ resp with status := some 200, body := imgproxyIsRunningMsg }, [], none)
      else
        match c.parseResult with
        | Except.error pv =>
          (resp,
            [Event.lock, Event.startTimer, Event.parsePathEv,
              Event.timerCancel, Event.unlock],
            some pv)
        | Except.ok (po, imageURL) =>
          match c.downloadResult with
          | Except.error pv =>
            (resp,
              [Event.lock, Event.startTimer, Event.parsePathEv, Event.downloadEv,
                Event.downloadCancel, Event.timerCancel, Event.unlock],
              some pv)
          | Except.ok data =>
            ((pipelineAfterDownload conf c r po imageURL data resp).1,
              [Event.lock, Event.startTimer, Event.parsePathEv, Event.downloadEv] ++
                (pipelineAfterDownload conf c r po imageURL data resp).2.1 ++
                [Event.downloadCancel, Event.timerCancel, Event.unlock],
              (pipelineAfterDownload conf c r po imageURL data resp).2.2)
    else
      (resp, [], some (PanicVal.ipErr errInvalidSecret))
  else
    (resp, [], some (PanicVal.ipErr errInvalidMethod))

/-- The final outcome of a request: a well-formed HTTP response, or a
crash of the handling goroutine (a re-raised non-error panic). -/
inductive Outcome
  | ok (resp : Response)
  | crash (msg : String)

/-- The deferred `recover()` boundary of `ServeHTTP` (lines 208-222):
a typed `*imgproxyError` panic is responded as-is; any other `error`
panic is wrapped by `newUnexpectedError(err, 4)`; a non-error panic
value is re-raised (`panic(rerr)`), crashing the handling unit. -/
def recoverWrap : Response × List Event × Option PanicVal → Outcome × List Event
  | (resp, evs, none) => (Outcome.ok resp, evs)
  | (resp, evs, some (PanicVal.ipErr e)) =>
    (Outcome.ok (respondWithError resp e), evs)
  | (resp, evs, some (PanicVal.goErr m)) =>
    (Outcome.ok (respondWithError resp (newUnexpectedError m 4)), evs)
  | (_, evs, some (PanicVal.nonError m)) => (Outcome.crash m, evs)

/-- Source `ServeHTTP`: the body under the recover boundary. -/
def serveHTTP (conf : Config) (c : Collab) (r : Request) : Outcome × List Event :=
  recoverWrap (serveHTTPBody conf c r)

/-- Status of an outcome (none for a crash, which writes no response). -/
def outcomeStatus : Outcome → Option Nat
  | Outcome.ok resp => resp.status
  | Outcome.crash _ => none

/-- Body of an outcome (none for a crash). -/
def outcomeBody : Outcome → Option (List Nat)
  | Outcome.ok resp => some resp.body
  | Outcome.crash _ => none

/-- A named header of an outcome's response (none for a crash). -/
def outcomeHeader (o : Outcome) (name : String) : Option String :=
  match o with
  | Outcome.ok resp => getHeader resp name
  | Outcome.crash _ => none

/-- Whether the outcome is a crash of the handling unit. -/
def isCrash : Outcome → Bool
  | Outcome.ok _ => false
  | Outcome.crash _ => true

/-- Capacity of the admission channel made by `newHTTPHandler`:
`make(chan struct{}, conf.Concurrency)`. -/
def newHTTPHandlerCap (conf : Config) : Nat := conf.concurrency

/-- Transitions of the admission semaphore: `lock()` sends on the
channel (possible only while fewer than `cap` tokens are held, else the
send blocks) and `unlock()` receives (possible only while a token is
held). The state is the number of requests between acquire and
release. -/
inductive SemStep (cap : Nat) : Nat → Nat → Prop
  | lockStep {n : Nat} : n < cap → SemStep cap n (n + 1)
  | unlockStep {n : Nat} : SemStep cap (n + 1) n

/-- States of the admission semaphore reachable from the empty channel
built at construction. -/
inductive SemReachable (cap : Nat) : Nat → Prop
  | init : SemReachable cap 0
  | step {m n : Nat} : SemReachable cap m → SemStep cap m n → SemReachable cap n

/-- Sample configuration with all defaults (no secret, no gzip, no ETag). -/
def confDefault : Config := {}

/-- Sample configuration with a shared secret configured. -/
def confSecret : Config := { secret := "s" }

/-- Sample processing options targeting PNG. -/
def poSample : ProcessingOptions := { format := ImageType.png, params := "w100" }

/-- Collaborator oracle for a fully successful run. -/
def collabOK : Collab :=
  { parseResult := Except.ok (poSample, "http://x/y/photo.png?a=b"),
    downloadResult := Except.ok [1, 2, 3],
    processResult := Except.ok [9, 9] }

/-- Collaborator oracle whose deadline has elapsed from the start. -/
def collabElapsed : Collab := { collabOK with elapsed := fun _ => true }

/-- Sample plain GET request for an image path. -/
def reqGET : Request := { method := "GET", requestURI := "/img/abc" }

/-- The recover boundary never alters the event trace of the body. -/
theorem recoverWrap_events (t : Response × List Event × Option PanicVal) :
    (recoverWrap t).2 = t.2.1 := by
  rcases t with ⟨resp, evs, pv⟩
  cases pv with
  | none => rfl
  | some v => cases v <;> rfl



/-- Claim C1: at every instant at most `Concurrency` requests hold an
admission token. `ServeHTTP` acquires via `lock()` (a send on a channel
of capacity `conf.Concurrency` built by `newHTTPHandler`) and releases
via a deferred `unlock()`; in every state of that semaphore reachable
from the empty channel, the number of requests between acquire and
release is at most the channel capacity fixed at construction. -/
theorem C1_admission_token_bound (conf : Config) (n : Nat)
    (h : SemReachable (newHTTPHandlerCap conf) n) : n ≤ newHTTPHandlerCap conf := by
  induction h with
  | init => exact Nat.zero_le _
  | step hr hs ih =>
    cases hs with
    | lockStep hlt => exact hlt
    | unlockStep => exact Nat.le_of_succ_le ih

/-- Witness for C1 at the default configuration (capacity 2), in the
state reached after one `lock()`. -/
theorem C1_admission_token_bound_witness :
    SemReachable (newHTTPHandlerCap confDefault) 1 ∧ 1 ≤ newHTTPHandlerCap confDefault :=
  ⟨SemReachable.step SemReachable.init (SemStep.lockStep (by decide)),
    C1_admission_token_bound confDefault 1
      (SemReachable.step SemReachable.init (SemStep.lockStep (by decide)))⟩

/-- Claim C5: a request whose method is neither GET nor OPTIONS gets
status 422 with the public message of `errInvalidMethod` as the body,
and no admission slot is consumed (the event trace is empty: the method
check fails strictly before `lock()`). -/
theorem C5_invalid_method (conf : Config) (c : Collab) (r : Request)
    (h1 : r.method ≠ "GET") (h2 : r.method ≠ "OPTIONS") :
    outcomeStatus (serveHTTP conf c r).1 = some 422 ∧
    outcomeBody (serveHTTP conf c r).1 = some (strBytes "Method doesn't allowed") ∧
    (serveHTTP conf c r).2 = [] := by
  have hb : serveHTTPBody conf c r =
      (writeCORS conf emptyResponse, [], some (PanicVal.ipErr errInvalidMethod)) := by
    simp only [serveHTTPBody, if_neg h2, if_neg h1]
  simp [serveHTTP, hb, recoverWrap, outcomeStatus, outcomeBody, respondWithError,
    errInvalidMethod, newError]

/-- Sample POST request. -/
def reqPost : Request := { method := "POST", requestURI := "/img/abc" }

/-- Witness for C5 at a concrete POST request. -/
theorem C5_invalid_method_witness :
    outcomeStatus (serveHTTP confDefault collabOK reqPost).1 = some 422 ∧
    outcomeBody (serveHTTP confDefault collabOK reqPost).1 = some (strBytes "Method doesn't allowed") ∧
    (serveHTTP confDefault collabOK reqPost).2 = [] :=
  C5_invalid_method confDefault collabOK reqPost (by decide) (by decide)

/-- Sample OPTIONS request carrying a mismatching Authorization header. -/
def reqOptionsBadAuth : Request :=
  { method := "OPTIONS", requestURI := "/img/a", authorization := "nope" }

/-- Claim C4 counterexample: with a secret configured and an
`Authorization` header different from `Bearer <secret>`, an OPTIONS
request is answered 200 (the OPTIONS shortcut runs before the auth
gate), not 403 — so the claim quantified over every request fails. -/
theorem C4_counterexample :
    confSecret.secret ≠ "" ∧
    reqOptionsBadAuth.authorization ≠ prepareAuthHeaderMust confSecret ∧
    outcomeStatus (serveHTTP confSecret collabOK reqOptionsBadAuth).1 = some 200 ∧
    outcomeStatus (serveHTTP confSecret collabOK reqOptionsBadAuth).1 ≠ some 403 := by
  refine ⟨by decide, by decide, ?_, ?_⟩
  · rfl
  · decide

/-- Claim C4 (amended to GET requests, which are the ones that reach the
auth gate — OPTIONS requests are answered 200 beforehand and other
methods fail with 422 beforehand): when a secret is configured and the
`Authorization` header differs from `Bearer <secret>`, the request
terminates with `errInvalidSecret` (status 403, body "Forbidden") and no
later pipeline stage runs (empty event trace); when the gate passes
(header matches or no secret configured) on a non-health GET request,
the pipeline proceeds to admission (`lock()` appears in the trace). -/
theorem C4_auth_gate (conf : Config) (c : Collab) (r : Request)
    (hm : r.method = "GET") :
    (conf.secret ≠ "" → r.authorization ≠ prepareAuthHeaderMust conf →
      outcomeStatus (serveHTTP conf c r).1 = some 403 ∧
      outcomeBody (serveHTTP conf c r).1 = some (strBytes "Forbidden") ∧
      (serveHTTP conf c r).2 = []) ∧
    (checkSecret conf r = true → r.requestURI ≠ healthPath →
      Event.lock ∈ (serveHTTP conf c r).2) := by
  constructor
  · intro hsec hauth
    have hcs : checkSecret conf r = false := by
      simp [checkSecret, if_neg hsec, hauth]
    have hb : serveHTTPBody conf c r =
        (writeCORS conf emptyResponse, [], some (PanicVal.ipErr errInvalidSecret)) := by
      simp only [serveHTTPBody, hm, hcs]
      rfl
    simp [serveHTTP, hb, recoverWrap, outcomeStatus, outcomeBody, respondWithError,
      errInvalidSecret, newError]
  · intro hcs hh
    rw [serveHTTP, recoverWrap_events]
    simp only [serveHTTPBody, hm, hcs, if_neg hh]
    simp only [reduceIte, if_true]
    rcases c.parseResult with pv | ⟨po, imageURL⟩
    · simp
    · rcases c.downloadResult with pv | data
      · simp
      · rcases hpd : pipelineAfterDownload conf c r po imageURL data (writeCORS conf emptyResponse)
          with ⟨resp2, evs, pv⟩
        simp

/-- Witness for C4: a GET request with a configured secret and a wrong
header is refused with 403 and an empty trace. -/
theorem C4_auth_gate_witness :
    outcomeStatus (serveHTTP confSecret collabOK reqGET).1 = some 403 ∧
    outcomeBody (serveHTTP confSecret collabOK reqGET).1 = some (strBytes "Forbidden") ∧
    (serveHTTP confSecret collabOK reqGET).2 = [] :=
  (C4_auth_gate confSecret collabOK reqGET (by decide)).1 (by decide) (by decide)

/-- Sample GET /health request without credentials. -/
def reqHealthNoAuth : Request := { method := "GET", requestURI := "/health" }

/-- Claim C7 counterexample: the health shortcut sits after the auth
gate, so with a secret configured a GET request for exactly the
health-check path without the right `Authorization` header is answered
403, not 200 — the claim quantified over every GET /health request
fails. -/
theorem C7_counterexample :
    reqHealthNoAuth.method = "GET" ∧
    reqHealthNoAuth.requestURI = healthPath ∧
    outcomeStatus (serveHTTP confSecret collabOK reqHealthNoAuth).1 = some 403 ∧
    outcomeStatus (serveHTTP confSecret collabOK reqHealthNoAuth).1 ≠ some 200 := by
  refine ⟨rfl, rfl, rfl, by decide⟩

/-- Claim C7 (amended with the auth-gate precondition forced by the
counterexample): every GET request for exactly the health-check path
that passes the auth gate is answered 200 with the fixed body
`imgproxy is running`, with an empty event trace — in particular no
admission acquire, so the health response does not depend on
admission-pool saturation. -/
theorem C7_health_shortcut (conf : Config) (c : Collab) (r : Request)
    (hm : r.method = "GET") (hs : checkSecret conf r = true)
    (hh : r.requestURI = healthPath) :
    outcomeStatus (serveHTTP conf c r).1 = some 200 ∧
    outcomeBody (serveHTTP conf c r).1 = some imgproxyIsRunningMsg ∧
    (serveHTTP conf c r).2 = [] := by
  have hb : serveHTTPBody conf c r =
      ({ writeCORS conf emptyResponse with status := some 200, body := imgproxyIsRunningMsg },
        [], none) := by
    simp only [serveHTTPBody, hm, hs, hh]
    rfl
  simp [serveHTTP, hb, recoverWrap, outcomeStatus, outcomeBody]

/-- Sample GET /health request carrying the right bearer token. -/
def reqHealthAuth : Request :=
  { method := "GET", requestURI := "/health", authorization := "Bearer s" }

/-- Witness for C7 at a concrete authorized health request under a
configured secret. -/
theorem C7_health_shortcut_witness :
    outcomeStatus (serveHTTP confSecret collabOK reqHealthAuth).1 = some 200 ∧
    outcomeBody (serveHTTP confSecret collabOK reqHealthAuth).1 = some imgproxyIsRunningMsg ∧
    (serveHTTP confSecret collabOK reqHealthAuth).2 = [] :=
  C7_health_shortcut confSecret collabOK reqHealthAuth (by decide) (by decide) (by decide)

/-- The claim's classification contract, written from the claim's own
words, per kind of panic value: a typed imgproxy error is answered with
that error's own status code and public message; any other Go error is
answered as a generic 500 with the fixed public message
"Internal error"; a panic value that is not an error crashes the
handling unit — no HTTP response exists. -/
def classifiedOutcome (o : Outcome) : PanicVal → Prop
  | PanicVal.ipErr e =>
    isCrash o = false ∧ outcomeStatus o = some e.statusCode ∧
      outcomeBody o = some (strBytes e.publicMessage)
  | PanicVal.goErr _ =>
    isCrash o = false ∧ outcomeStatus o = some 500 ∧
      outcomeBody o = some (strBytes "Internal error")
  | PanicVal.nonError m => o = Outcome.crash m

/-- Claim C3: the top-level recovery boundary classifies every panic
value, wherever in the pipeline it arises. For a failure injected at
the path-parse stage, at the download stage, or at the processing stage
of a request that reaches that stage: a panic whose value is a typed
imgproxy error is responded with that error's own status code and
public message; a panic whose value is any other Go error is wrapped by
`newUnexpectedError(err, 4)` — a 500 with the fixed public message
"Internal error" and bounded diagnostic depth 4 — and responded with
that; and a panic whose value is not an error at all is re-raised,
crashing the request-handling unit, and is never converted into an HTTP
response. -/
theorem C3_recovery_classification (conf : Config) (c : Collab) (r : Request)
    (hm : r.method = "GET") (hs : checkSecret conf r = true)
    (hh : r.requestURI ≠ healthPath) :
    (∀ pv, c.parseResult = Except.error pv →
      classifiedOutcome (serveHTTP conf c r).1 pv) ∧
    (∀ po imageURL pv, c.parseResult = Except.ok (po, imageURL) →
      c.downloadResult = Except.error pv →
      classifiedOutcome (serveHTTP conf c r).1 pv) ∧
    (∀ po imageURL data pv, c.parseResult = Except.ok (po, imageURL) →
      c.downloadResult = Except.ok data →
      c.elapsed 1 = false →
      (etagBranch conf r po data (writeCORS conf emptyResponse)).2.2 = false →
      c.elapsed 2 = false →
      c.processResult = Except.error pv →
      classifiedOutcome (serveHTTP conf c r).1 pv) := by
  refine ⟨?_, ?_, ?_⟩
  · intro pv hp
    have hb : serveHTTPBody conf c r =
        (writeCORS conf emptyResponse,
          [Event.lock, Event.startTimer, Event.parsePathEv,
            Event.timerCancel, Event.unlock], some pv) := by
      simp only [serveHTTPBody, hm, hs, if_neg hh, hp]
      rfl
    cases pv <;>
      simp [serveHTTP, hb, recoverWrap, classifiedOutcome, isCrash, outcomeStatus,
        outcomeBody, respondWithError, newUnexpectedError, newError]
  · intro po imageURL pv hp hd
    have hb : serveHTTPBody conf c r =
        (writeCORS conf emptyResponse,
          [Event.lock, Event.startTimer, Event.parsePathEv, Event.downloadEv,
            Event.downloadCancel, Event.timerCancel, Event.unlock], some pv) := by
      simp only [serveHTTPBody, hm, hs, if_neg hh, hp, hd]
      rfl
    cases pv <;>
      simp [serveHTTP, hb, recoverWrap, classifiedOutcome, isCrash, outcomeStatus,
        outcomeBody, respondWithError, newUnexpectedError, newError]
  · intro po imageURL data pv hp hd ht1 hterm ht2 hpr
    have hpd : pipelineAfterDownload conf c r po imageURL data
        (writeCORS conf emptyResponse) =
        ((etagBranch conf r po data (writeCORS conf emptyResponse)).1,
          Event.checkTimeoutEv ::
            (etagBranch conf r po data (writeCORS conf emptyResponse)).2.1 ++
            [Event.checkTimeoutEv, Event.processEv],
          some pv) := by
      simp [pipelineAfterDownload, ht1, hterm, ht2, hpr]
    have hb : serveHTTPBody conf c r =
        ((pipelineAfterDownload conf c r po imageURL data
            (writeCORS conf emptyResponse)).1,
          [Event.lock, Event.startTimer, Event.parsePathEv, Event.downloadEv] ++
            (pipelineAfterDownload conf c r po imageURL data
              (writeCORS conf emptyResponse)).2.1 ++
            [Event.downloadCancel, Event.timerCancel, Event.unlock],
          (pipelineAfterDownload conf c r po imageURL data
            (writeCORS conf emptyResponse)).2.2) := by
      simp only [serveHTTPBody, hm, hs, if_neg hh, hp, hd]
      rfl
    rw [serveHTTP, hb, hpd]
    cases pv <;>
      simp [recoverWrap, classifiedOutcome, isCrash, outcomeStatus,
        outcomeBody, respondWithError, newUnexpectedError, newError]

/-- Collaborator oracle whose parser fails with a non-error panic value
(a logic fault outside the error taxonomy). -/
def collabNonError : Collab :=
  { collabOK with parseResult := Except.error (PanicVal.nonError "fault") }

/-- Witness for C3: a non-error panic from a stage propagates as a crash
of the handling unit, not an HTTP response. -/
theorem C3_recovery_classification_witness :
    (serveHTTP confDefault collabNonError reqGET).1 = Outcome.crash "fault" :=
  (C3_recovery_classification confDefault collabNonError reqGET rfl (by decide)
    (by decide)).1 (PanicVal.nonError "fault") rfl

/-- Claim C6: with ETag support enabled, after a successful download the
pipeline computes the ETag over the response-determining inputs (source
bytes and processing options — so identical inputs give the identical
value, `calcETag` being a function of exactly those two); it sets the
`ETag` header and, when the value equals the client's `If-None-Match`,
responds 304 with an empty body and terminates without the processing
stage ever running. -/
theorem C6_etag_not_modified (conf : Config) (c : Collab) (r : Request)
    (po : ProcessingOptions) (imageURL : String) (data : List Nat)
    (hm : r.method = "GET") (hs : checkSecret conf r = true)
    (hh : r.requestURI ≠ healthPath)
    (hp : c.parseResult = Except.ok (po, imageURL))
    (hd : c.downloadResult = Except.ok data)
    (ht : c.elapsed 1 = false)
    (he : conf.etagEnabled = true)
    (hmatch : calcETag data po = r.ifNoneMatch) :
    outcomeStatus (serveHTTP conf c r).1 = some 304 ∧
    outcomeBody (serveHTTP conf c r).1 = some [] ∧
    outcomeHeader (serveHTTP conf c r).1 "ETag" = some (calcETag data po) ∧
    Event.processEv ∉ (serveHTTP conf c r).2 := by
  have heb : etagBranch conf r po data (writeCORS conf emptyResponse) =
      (respondWithNotModified
          (setHeader (writeCORS conf emptyResponse) "ETag" (calcETag data po)),
        [Event.setETagEv], true) := by
    simp only [etagBranch, he, if_pos hmatch]
    simp
  have hpd : pipelineAfterDownload conf c r po imageURL data (writeCORS conf emptyResponse) =
      (respondWithNotModified
          (setHeader (writeCORS conf emptyResponse) "ETag" (calcETag data po)),
        [Event.checkTimeoutEv, Event.setETagEv], none) := by
    simp only [pipelineAfterDownload, ht, heb]
    simp
  have hb : serveHTTPBody conf c r =
      (respondWithNotModified
          (setHeader (writeCORS conf emptyResponse) "ETag" (calcETag data po)),
        [Event.lock, Event.startTimer, Event.parsePathEv, Event.downloadEv,
          Event.checkTimeoutEv, Event.setETagEv,
          Event.downloadCancel, Event.timerCancel, Event.unlock], none) := by
    simp only [serveHTTPBody, hm, hs, if_neg hh, hp, hd, hpd]
    rfl
  simp [serveHTTP, hb, recoverWrap, outcomeStatus, outcomeBody, outcomeHeader,
    getHeader, setHeader, respondWithNotModified]

/-- Collaborator oracle and request for an If-None-Match hit. -/
def reqIfNoneMatch : Request :=
  { method := "GET", requestURI := "/img/abc",
    ifNoneMatch := calcETag [1, 2, 3] poSample }

/-- Configuration with ETag support enabled. -/
def confETag : Config := { etagEnabled := true }

/-- Witness for C6: a concrete matching If-None-Match request gets 304
with no body, carries the ETag, and processing never runs. -/
theorem C6_etag_not_modified_witness :
    outcomeStatus (serveHTTP confETag collabOK reqIfNoneMatch).1 = some 304 ∧
    outcomeBody (serveHTTP confETag collabOK reqIfNoneMatch).1 = some [] ∧
    outcomeHeader (serveHTTP confETag collabOK reqIfNoneMatch).1 "ETag" =
      some (calcETag [1, 2, 3] poSample) ∧
    Event.processEv ∉ (serveHTTP confETag collabOK reqIfNoneMatch).2 :=
  C6_etag_not_modified confETag collabOK reqIfNoneMatch poSample
    "http://x/y/photo.png?a=b" [1, 2, 3]
    rfl (by decide) (by decide) rfl rfl rfl rfl rfl

/-- The response encoder never touches the `ETag` header. -/
theorem respondWithImage_keeps_etag (conf : Config) (c : Collab) (r : Request)
    (po : ProcessingOptions) (imageURL : String) (resp : Response) (data : List Nat) :
    (respondWithImage conf c r po imageURL resp data).1.headers "ETag" =
      resp.headers "ETag" := by
  unfold respondWithImage
  split <;> simp [getHeader, setHeader]

/-- With the deadline not yet elapsed at the first check and ETag
support enabled, every response state produced from the cache-validation
point on carries the computed `ETag` header: it is set before the
`If-None-Match` comparison, and no later stage overwrites it. -/
theorem pipelineAfterDownload_etag_header (conf : Config) (c : Collab) (r : Request)
    (po : ProcessingOptions) (imageURL : String) (data : List Nat) (resp : Response)
    (ht : c.elapsed 1 = false) (he : conf.etagEnabled = true) :
    getHeader (pipelineAfterDownload conf c r po imageURL data resp).1 "ETag" =
      some (calcETag data po) := by
  by_cases hc : calcETag data po = r.ifNoneMatch
  · have heb : etagBranch conf r po data resp =
        (respondWithNotModified (setHeader resp "ETag" (calcETag data po)),
          [Event.setETagEv], true) := by
      simp only [etagBranch, he, if_pos hc]
      simp
    simp [pipelineAfterDownload, ht, heb, getHeader, setHeader, respondWithNotModified]
  · have heb : etagBranch conf r po data resp =
        (setHeader resp "ETag" (calcETag data po), [Event.setETagEv], false) := by
      simp only [etagBranch, he, if_neg hc]
      simp
    simp only [pipelineAfterDownload, ht, heb]
    repeat' split
    all_goals
      simp_all [getHeader, setHeader, respondWithImage_keeps_etag, respondWithNotModified]

/-- Claim C10: when ETag support is enabled and the request reaches the
cache-validation stage, the `ETag` header is set unconditionally before
the `If-None-Match` comparison; consequently every HTTP response
produced from that point on — the 304, any error response from a later
stage (timeout, processing failure), and the 200 — carries the computed
`ETag` header (a crashed handling unit writes no response at all). -/
theorem C10_etag_header_always_set (conf : Config) (c : Collab) (r : Request)
    (po : ProcessingOptions) (imageURL : String) (data : List Nat)
    (hm : r.method = "GET") (hs : checkSecret conf r = true)
    (hh : r.requestURI ≠ healthPath)
    (hp : c.parseResult = Except.ok (po, imageURL))
    (hd : c.downloadResult = Except.ok data)
    (ht : c.elapsed 1 = false)
    (he : conf.etagEnabled = true)
    (hnc : isCrash (serveHTTP conf c r).1 = false) :
    outcomeHeader (serveHTTP conf c r).1 "ETag" = some (calcETag data po) := by
  have hresp := pipelineAfterDownload_etag_header conf c r po imageURL data
    (writeCORS conf emptyResponse) ht he
  have hb : serveHTTPBody conf c r =
      ((pipelineAfterDownload conf c r po imageURL data (writeCORS conf emptyResponse)).1,
        [Event.lock, Event.startTimer, Event.parsePathEv, Event.downloadEv] ++
          (pipelineAfterDownload conf c r po imageURL data (writeCORS conf emptyResponse)).2.1 ++
          [Event.downloadCancel, Event.timerCancel, Event.unlock],
        (pipelineAfterDownload conf c r po imageURL data (writeCORS conf emptyResponse)).2.2) := by
    simp only [serveHTTPBody, hm, hs, if_neg hh, hp, hd]
    rfl
  rw [serveHTTP, hb] at hnc ⊢
  rcases hpv : (pipelineAfterDownload conf c r po imageURL data (writeCORS conf emptyResponse)).2.2
    with _ | pv
  · simp [recoverWrap, outcomeHeader, getHeader] at hresp ⊢
    exact hresp
  · cases pv with
    | ipErr e =>
      simp [recoverWrap, outcomeHeader, respondWithError, getHeader] at hresp ⊢
      exact hresp
    | goErr m =>
      simp [recoverWrap, outcomeHeader, respondWithError, getHeader] at hresp ⊢
      exact hresp
    | nonError m =>
      rw [hpv] at hnc
      simp [recoverWrap, isCrash] at hnc

/-- Witness for C10: a concrete non-matching request under ETag support
succeeds with 200 and carries the computed ETag header. -/
theorem C10_etag_header_always_set_witness :
    outcomeHeader (serveHTTP confETag collabOK reqGET).1 "ETag" =
      some (calcETag [1, 2, 3] poSample) :=
  C10_etag_header_always_set confETag collabOK reqGET poSample
    "http://x/y/photo.png?a=b" [1, 2, 3] rfl (by decide) (by decide) rfl rfl rfl rfl rfl

/-- The response encoder's only events are the buffer-pool ones. -/
theorem respondWithImage_events (conf : Config) (c : Collab) (r : Request)
    (po : ProcessingOptions) (imageURL : String) (resp : Response)
    (data : List Nat) (e : Event) :
    e ∈ (respondWithImage conf c r po imageURL resp data).2 →
      e = Event.bufGet ∨ e = Event.bufReset ∨ e = Event.bufPut := by
  unfold respondWithImage
  split <;> intro h <;> simp_all

/-- The ETag block records at most its single header-setting event. -/
theorem etagBranch_events (conf : Config) (r : Request) (po : ProcessingOptions)
    (data : List Nat) (resp : Response) :
    (etagBranch conf r po data resp).2.1 = [] ∨
    (etagBranch conf r po data resp).2.1 = [Event.setETagEv] := by
  unfold etagBranch
  by_cases he : conf.etagEnabled = true
  · simp only [he]
    by_cases hc : calcETag data po = r.ifNoneMatch <;> simp [hc]
  · simp [he]

/-- Stage-guard facts about the post-download pipeline trace: the
timer is never restarted there; the cache-validation, processing and
respond stages run only when the deadline had not elapsed at every
`checkTimeout` preceding them; an elapsed deadline at the first check
yields exactly the Timeout panic with no further stage; and when the
second (respectively third) check was reached — the trace records at
least two (three) `checkTimeout` events — with the deadline elapsed at
instant 2 (3), the region ends in the Timeout panic. -/
theorem pipelineAfterDownload_props (conf : Config) (c : Collab) (r : Request)
    (po : ProcessingOptions) (imageURL : String) (data : List Nat) (resp : Response) :
    Event.startTimer ∉ (pipelineAfterDownload conf c r po imageURL data resp).2.1 ∧
    (Event.setETagEv ∈ (pipelineAfterDownload conf c r po imageURL data resp).2.1 →
      c.elapsed 1 = false) ∧
    (Event.processEv ∈ (pipelineAfterDownload conf c r po imageURL data resp).2.1 →
      c.elapsed 1 = false ∧ c.elapsed 2 = false) ∧
    (Event.respondEv ∈ (pipelineAfterDownload conf c r po imageURL data resp).2.1 →
      c.elapsed 1 = false ∧ c.elapsed 2 = false ∧ c.elapsed 3 = false) ∧
    (c.elapsed 1 = true →
      pipelineAfterDownload conf c r po imageURL data resp =
        (resp, [Event.checkTimeoutEv], some (PanicVal.ipErr errTimeout))) ∧
    (2 ≤ (pipelineAfterDownload conf c r po imageURL data resp).2.1.count
        Event.checkTimeoutEv →
      c.elapsed 2 = true →
      (pipelineAfterDownload conf c r po imageURL data resp).2.2 =
        some (PanicVal.ipErr errTimeout)) ∧
    (3 ≤ (pipelineAfterDownload conf c r po imageURL data resp).2.1.count
        Event.checkTimeoutEv →
      c.elapsed 3 = true →
      (pipelineAfterDownload conf c r po imageURL data resp).2.2 =
        some (PanicVal.ipErr errTimeout)) := by
  by_cases ht1 : c.elapsed 1 = true
  · have hpd : pipelineAfterDownload conf c r po imageURL data resp =
        (resp, [Event.checkTimeoutEv], some (PanicVal.ipErr errTimeout)) := by
      simp [pipelineAfterDownload, ht1]
    simp [hpd, ht1]
  · have ht1f : c.elapsed 1 = false := by simpa using ht1
    have hrwi := respondWithImage_events conf c r po imageURL
    rcases etagBranch_events conf r po data resp with hE | hE <;>
    · by_cases hterm : (etagBranch conf r po data resp).2.2 = true
      · have hpd : pipelineAfterDownload conf c r po imageURL data resp =
            ((etagBranch conf r po data resp).1,
              Event.checkTimeoutEv :: (etagBranch conf r po data resp).2.1, none) := by
          simp [pipelineAfterDownload, ht1f, hterm]
        refine ⟨?_, fun _ => ht1f, ?_, ?_, ?_, ?_, ?_⟩
        · simp [hpd, hE]
        · simp [hpd, hE]
        · simp [hpd, hE]
        · intro h; exact absurd h ht1
        · intro hcnt _
          rw [hpd] at hcnt
          simp [hE, List.count_cons, List.count_nil] at hcnt
        · intro hcnt _
          rw [hpd] at hcnt
          simp [hE, List.count_cons, List.count_nil] at hcnt
      · have htermf : (etagBranch conf r po data resp).2.2 = false := by
          simpa using hterm
        by_cases ht2 : c.elapsed 2 = true
        · have hpd : pipelineAfterDownload conf c r po imageURL data resp =
              ((etagBranch conf r po data resp).1,
                Event.checkTimeoutEv :: (etagBranch conf r po data resp).2.1 ++
                  [Event.checkTimeoutEv],
                some (PanicVal.ipErr errTimeout)) := by
            simp [pipelineAfterDownload, ht1f, htermf, ht2]
          refine ⟨?_, fun _ => ht1f, ?_, ?_, ?_, ?_, ?_⟩
          · simp [hpd, hE]
          · simp [hpd, hE]
          · simp [hpd, hE]
          · intro h; exact absurd h ht1
          · intro _ _; rw [hpd]
          · intro _ _; rw [hpd]
        · have ht2f : c.elapsed 2 = false := by simpa using ht2
          rcases hpr : c.processResult with pv | imageData
          · have hpd : pipelineAfterDownload conf c r po imageURL data resp =
                ((etagBranch conf r po data resp).1,
                  Event.checkTimeoutEv :: (etagBranch conf r po data resp).2.1 ++
                    [Event.checkTimeoutEv, Event.processEv],
                  some pv) := by
              simp [pipelineAfterDownload, ht1f, htermf, ht2f, hpr]
            refine ⟨?_, fun _ => ht1f, fun _ => ⟨ht1f, ht2f⟩, ?_, ?_, ?_, ?_⟩
            · simp [hpd, hE]
            · simp [hpd, hE]
            · intro h; exact absurd h ht1
            · intro _ h2; exact absurd h2 ht2
            · intro hcnt _
              rw [hpd] at hcnt
              simp [hE, List.count_cons, List.count_nil, List.count_append] at hcnt
          · by_cases ht3 : c.elapsed 3 = true
            · have hpd : pipelineAfterDownload conf c r po imageURL data resp =
                  ((etagBranch conf r po data resp).1,
                    Event.checkTimeoutEv :: (etagBranch conf r po data resp).2.1 ++
                      [Event.checkTimeoutEv, Event.processEv, Event.checkTimeoutEv],
                    some (PanicVal.ipErr errTimeout)) := by
                simp [pipelineAfterDownload, ht1f, htermf, ht2f, hpr, ht3]
              refine ⟨?_, fun _ => ht1f, fun _ => ⟨ht1f, ht2f⟩, ?_, ?_, ?_, ?_⟩
              · simp [hpd, hE]
              · simp [hpd, hE]
              · intro h; exact absurd h ht1
              · intro _ h2; exact absurd h2 ht2
              · intro _ _; rw [hpd]
            · have ht3f : c.elapsed 3 = false := by simpa using ht3
              have hpd : pipelineAfterDownload conf c r po imageURL data resp =
                  ((respondWithImage conf c r po imageURL
                      (etagBranch conf r po data resp).1 imageData).1,
                    Event.checkTimeoutEv :: (etagBranch conf r po data resp).2.1 ++
                      [Event.checkTimeoutEv, Event.processEv, Event.checkTimeoutEv] ++
                      (respondWithImage conf c r po imageURL
                        (etagBranch conf r po data resp).1 imageData).2 ++
                      [Event.respondEv],
                    none) := by
                simp [pipelineAfterDownload, ht1f, htermf, ht2f, hpr, ht3f]
              refine ⟨?_, fun _ => ht1f, fun _ => ⟨ht1f, ht2f⟩,
                fun _ => ⟨ht1f, ht2f, ht3f⟩, ?_, ?_, ?_⟩
              · intro hmem
                rw [hpd] at hmem
                simp [hE] at hmem
                rcases hrwi _ _ _ hmem with h | h | h <;> simp_all
              · intro h; exact absurd h ht1
              · intro _ h2; exact absurd h2 ht2
              · intro _ h3; exact absurd h3 ht3

/-- Claim C2 counterexample: with the deadline already elapsed before
the download (the clock reports elapsed at every instant, in particular
at instant 0, just before the download call), the download stage still
runs — the trace contains the download event with no `checkTimeout`
event before it. The code has no explicit deadline check between the
deadline start and the download call; the first check is after the
download. So "the deadline is checked explicitly ... before the
download stage" fails on the code. -/
theorem C2_counterexample :
    collabElapsed.elapsed 0 = true ∧
    (serveHTTP confDefault collabElapsed reqGET).2.contains Event.downloadEv = true ∧
    ((serveHTTP confDefault collabElapsed reqGET).2.takeWhile
        (fun e => !(e == Event.downloadEv))).contains Event.checkTimeoutEv = false := by
  decide

/-- Claim C2 (amended: the explicit deadline checks sit after the
download — before cache validation — then before processing, then after
processing before the response; there is no explicit check before the
download stage, whose mid-flight abort relies on the deadline context
passed into the call): the deadline is started at most once per request
(never extended or renewed); cache validation runs only if the deadline
had not elapsed at the check before it; processing runs only if it had
not elapsed at either earlier check; the response encoder runs only if
it had not elapsed at any of the three; and when a reached check sees
the deadline elapsed, the request fails with the Timeout error's status
and public message — for the first check (instant 1) "reached" is the
trace containing a `checkTimeout` event, and for the second and third
checks (instants 2 and 3) it is the trace containing at least two,
respectively three, `checkTimeout` events. -/
theorem C2_deadline_checks (conf : Config) (c : Collab) (r : Request) :
    (serveHTTP conf c r).2.count Event.startTimer ≤ 1 ∧
    (Event.setETagEv ∈ (serveHTTP conf c r).2 → c.elapsed 1 = false) ∧
    (Event.processEv ∈ (serveHTTP conf c r).2 →
      c.elapsed 1 = false ∧ c.elapsed 2 = false) ∧
    (Event.respondEv ∈ (serveHTTP conf c r).2 →
      c.elapsed 1 = false ∧ c.elapsed 2 = false ∧ c.elapsed 3 = false) ∧
    (Event.checkTimeoutEv ∈ (serveHTTP conf c r).2 → c.elapsed 1 = true →
      outcomeStatus (serveHTTP conf c r).1 = some errTimeout.statusCode ∧
      outcomeBody (serveHTTP conf c r).1 = some (strBytes errTimeout.publicMessage)) ∧
    (2 ≤ (serveHTTP conf c r).2.count Event.checkTimeoutEv → c.elapsed 2 = true →
      outcomeStatus (serveHTTP conf c r).1 = some errTimeout.statusCode ∧
      outcomeBody (serveHTTP conf c r).1 = some (strBytes errTimeout.publicMessage)) ∧
    (3 ≤ (serveHTTP conf c r).2.count Event.checkTimeoutEv → c.elapsed 3 = true →
      outcomeStatus (serveHTTP conf c r).1 = some errTimeout.statusCode ∧
      outcomeBody (serveHTTP conf c r).1 = some (strBytes errTimeout.publicMessage)) := by
  by_cases hOpt : r.method = "OPTIONS"
  · have hb : serveHTTPBody conf c r =
        (respondWithOptions (writeCORS conf emptyResponse), [], none) := by
      simp only [serveHTTPBody, if_pos hOpt]
    simp [serveHTTP, hb, recoverWrap]
  by_cases hGet : r.method = "GET"
  case neg =>
    have hb : serveHTTPBody conf c r =
        (writeCORS conf emptyResponse, [], some (PanicVal.ipErr errInvalidMethod)) := by
      simp only [serveHTTPBody, if_neg hOpt, if_neg hGet]
    simp [serveHTTP, hb, recoverWrap]
  by_cases hcs : checkSecret conf r = true
  case neg =>
    have hcsf : checkSecret conf r = false := by simpa using hcs
    have hb : serveHTTPBody conf c r =
        (writeCORS conf emptyResponse, [], some (PanicVal.ipErr errInvalidSecret)) := by
      simp only [serveHTTPBody, if_neg hOpt, hGet, hcsf]
      rfl
    simp [serveHTTP, hb, recoverWrap]
  by_cases hh : r.requestURI = healthPath
  · have hb : serveHTTPBody conf c r =
        ({ writeCORS conf emptyResponse with
            status := some 200, body := imgproxyIsRunningMsg }, [], none) := by
      simp only [serveHTTPBody, if_neg hOpt, hGet, hcs, hh]
      rfl
    simp [serveHTTP, hb, recoverWrap]
  rcases hp : c.parseResult with pv | ⟨po, imageURL⟩
  · have hb : serveHTTPBody conf c r =
        (writeCORS conf emptyResponse,
          [Event.lock, Event.startTimer, Event.parsePathEv,
            Event.timerCancel, Event.unlock], some pv) := by
      simp only [serveHTTPBody, if_neg hOpt, hGet, hcs, if_neg hh, hp]
      rfl
    have htr : (serveHTTP conf c r).2 =
        [Event.lock, Event.startTimer, Event.parsePathEv,
          Event.timerCancel, Event.unlock] := by
      rw [serveHTTP, recoverWrap_events, hb]
    refine ⟨?_, ?_, ?_, ?_, ?_, ?_, ?_⟩
    · rw [htr]; decide
    · rw [htr]; intro hmem; exact absurd hmem (by decide)
    · rw [htr]; intro hmem; exact absurd hmem (by decide)
    · rw [htr]; intro hmem; exact absurd hmem (by decide)
    · rw [htr]; intro hmem; exact absurd hmem (by decide)
    · rw [htr]; intro hcnt; exact absurd hcnt (by decide)
    · rw [htr]; intro hcnt; exact absurd hcnt (by decide)
  rcases hd : c.downloadResult with pv | data
  · have hb : serveHTTPBody conf c r =
        (writeCORS conf emptyResponse,
          [Event.lock, Event.startTimer, Event.parsePathEv, Event.downloadEv,
            Event.downloadCancel, Event.timerCancel, Event.unlock], some pv) := by
      simp only [serveHTTPBody, if_neg hOpt, hGet, hcs, if_neg hh, hp, hd]
      rfl
    have htr : (serveHTTP conf c r).2 =
        [Event.lock, Event.startTimer, Event.parsePathEv, Event.downloadEv,
          Event.downloadCancel, Event.timerCancel, Event.unlock] := by
      rw [serveHTTP, recoverWrap_events, hb]
    refine ⟨?_, ?_, ?_, ?_, ?_, ?_, ?_⟩
    · rw [htr]; decide
    · rw [htr]; intro hmem; exact absurd hmem (by decide)
    · rw [htr]; intro hmem; exact absurd hmem (by decide)
    · rw [htr]; intro hmem; exact absurd hmem (by decide)
    · rw [htr]; intro hmem; exact absurd hmem (by decide)
    · rw [htr]; intro hcnt; exact absurd hcnt (by decide)
    · rw [htr]; intro hcnt; exact absurd hcnt (by decide)
  obtain ⟨h1, h2, h3, h4, h5, h6, h7⟩ :=
    pipelineAfterDownload_props conf c r po imageURL data (writeCORS conf emptyResponse)
  set t := pipelineAfterDownload conf c r po imageURL data (writeCORS conf emptyResponse)
    with htdef
  have hb : serveHTTPBody conf c r =
      (t.1,
        [Event.lock, Event.startTimer, Event.parsePathEv, Event.downloadEv] ++
          t.2.1 ++ [Event.downloadCancel, Event.timerCancel, Event.unlock],
        t.2.2) := by
    simp only [serveHTTPBody, if_neg hOpt, hGet, hcs, if_neg hh, hp, hd]
    rfl
  have htr : (serveHTTP conf c r).2 =
      [Event.lock, Event.startTimer, Event.parsePathEv, Event.downloadEv] ++
        t.2.1 ++ [Event.downloadCancel, Event.timerCancel, Event.unlock] := by
    rw [serveHTTP, recoverWrap_events, hb]
  refine ⟨?_, ?_, ?_, ?_, ?_, ?_, ?_⟩
  · rw [htr, List.count_append, List.count_append]
    rw [List.count_eq_zero.mpr h1]
    decide
  · rw [htr]; intro hmem
    rcases List.mem_append.mp hmem with hmem1 | hmem1
    · rcases List.mem_append.mp hmem1 with hmem2 | hmem2
      · exact absurd hmem2 (by decide)
      · exact h2 hmem2
    · exact absurd hmem1 (by decide)
  · rw [htr]; intro hmem
    rcases List.mem_append.mp hmem with hmem1 | hmem1
    · rcases List.mem_append.mp hmem1 with hmem2 | hmem2
      · exact absurd hmem2 (by decide)
      · exact h3 hmem2
    · exact absurd hmem1 (by decide)
  · rw [htr]; intro hmem
    rcases List.mem_append.mp hmem with hmem1 | hmem1
    · rcases List.mem_append.mp hmem1 with hmem2 | hmem2
      · exact absurd hmem2 (by decide)
      · exact h4 hmem2
    · exact absurd hmem1 (by decide)
  · intro hmem ht1
    have htt := h5 ht1
    rw [serveHTTP, hb, htt]
    simp [recoverWrap, outcomeStatus, outcomeBody, respondWithError]
  · intro hcnt h2
    have hl1 : [Event.lock, Event.startTimer, Event.parsePathEv,
        Event.downloadEv].count Event.checkTimeoutEv = 0 := by decide
    have hl2 : [Event.downloadCancel, Event.timerCancel,
        Event.unlock].count Event.checkTimeoutEv = 0 := by decide
    rw [htr, List.count_append, List.count_append, hl1, hl2] at hcnt
    have hcnt2 : 2 ≤ t.2.1.count Event.checkTimeoutEv := by omega
    have htt := h6 hcnt2 h2
    rw [serveHTTP, hb, htt]
    simp [recoverWrap, outcomeStatus, outcomeBody, respondWithError]
  · intro hcnt h3
    have hl1 : [Event.lock, Event.startTimer, Event.parsePathEv,
        Event.downloadEv].count Event.checkTimeoutEv = 0 := by decide
    have hl2 : [Event.downloadCancel, Event.timerCancel,
        Event.unlock].count Event.checkTimeoutEv = 0 := by decide
    rw [htr, List.count_append, List.count_append, hl1, hl2] at hcnt
    have hcnt3 : 3 ≤ t.2.1.count Event.checkTimeoutEv := by omega
    have htt := h7 hcnt3 h3
    rw [serveHTTP, hb, htt]
    simp [recoverWrap, outcomeStatus, outcomeBody, respondWithError]

/-- Collaborator oracle whose deadline elapses between the first and
second `checkTimeout` (not yet elapsed at instant 1, elapsed from
instant 2 on). -/
def collabElapsed2 : Collab :=
  { collabOK with elapsed := fun i => decide (2 ≤ i) }

/-- Witness for C2: a run whose deadline elapses only at the second
check (before processing) still responds with the Timeout status. -/
theorem C2_deadline_checks_witness :
    outcomeStatus (serveHTTP confDefault collabElapsed2 reqGET).1 =
      some errTimeout.statusCode :=
  ((C2_deadline_checks confDefault collabElapsed2 reqGET).2.2.2.2.2.1
    (by decide) (by decide)).1

/-- Claim C8: for a successful image response, when gzip compression is
enabled and the client's `Accept-Encoding` contains "gzip", the
response carries `Content-Encoding: gzip`, a `Content-Length` equal to
the length of the compressed payload, the compressed payload as body,
and the pooled buffer is taken, reset before use and returned after use
(the get/reset/put events, in that order, on this path regardless of
payload); otherwise the raw bytes are written with their own length as
`Content-Length` and no `Content-Encoding` header is set. -/
theorem C8_gzip_encoding (conf : Config) (c : Collab) (r : Request)
    (po : ProcessingOptions) (imageURL : String) (resp : Response)
    (data : List Nat)
    (hce : getHeader resp "Content-Encoding" = none) :
    (0 < conf.gzipCompression → goStringContains r.acceptEncoding "gzip" = true →
      getHeader (respondWithImage conf c r po imageURL resp data).1 "Content-Encoding" =
        some "gzip" ∧
      getHeader (respondWithImage conf c r po imageURL resp data).1 "Content-Length" =
        some (toString (c.gzip data).length) ∧
      (respondWithImage conf c r po imageURL resp data).1.body = c.gzip data ∧
      (respondWithImage conf c r po imageURL resp data).1.status = some 200 ∧
      (respondWithImage conf c r po imageURL resp data).2 =
        [Event.bufGet, Event.bufReset, Event.bufPut]) ∧
    (¬ (0 < conf.gzipCompression ∧ goStringContains r.acceptEncoding "gzip" = true) →
      getHeader (respondWithImage conf c r po imageURL resp data).1 "Content-Encoding" =
        none ∧
      getHeader (respondWithImage conf c r po imageURL resp data).1 "Content-Length" =
        some (toString data.length) ∧
      (respondWithImage conf c r po imageURL resp data).1.body = data ∧
      (respondWithImage conf c r po imageURL resp data).1.status = some 200 ∧
      (respondWithImage conf c r po imageURL resp data).2 = []) := by
  constructor
  · intro hgz hae
    have hcond : 0 < conf.gzipCompression ∧ goStringContains r.acceptEncoding "gzip" = true :=
      ⟨hgz, hae⟩
    unfold respondWithImage
    rw [if_pos hcond]
    simp [getHeader, setHeader]
  · intro hcond
    unfold respondWithImage
    rw [if_neg hcond]
    simp only [getHeader, setHeader] at hce ⊢
    simp [hce]

/-- Configuration with gzip compression enabled. -/
def confGzip : Config := { gzipCompression := 5 }

/-- Request advertising gzip support. -/
def reqGzip : Request :=
    { method := "GET", requestURI := "/img/abc", acceptEncoding := "gzip, deflate" }

/-- Witness for C8 on the gzip path at concrete inputs. -/
theorem C8_gzip_encoding_witness :
    getHeader (respondWithImage confGzip collabOK reqGzip poSample
        "http://x/y/photo.png?a=b" emptyResponse [1, 2, 3]).1 "Content-Encoding" =
      some "gzip" ∧
    getHeader (respondWithImage confGzip collabOK reqGzip poSample
        "http://x/y/photo.png?a=b" emptyResponse [1, 2, 3]).1 "Content-Length" =
      some (toString (collabOK.gzip [1, 2, 3]).length) ∧
    (respondWithImage confGzip collabOK reqGzip poSample
        "http://x/y/photo.png?a=b" emptyResponse [1, 2, 3]).1.body =
      collabOK.gzip [1, 2, 3] ∧
    (respondWithImage confGzip collabOK reqGzip poSample
        "http://x/y/photo.png?a=b" emptyResponse [1, 2, 3]).1.status = some 200 ∧
    (respondWithImage confGzip collabOK reqGzip poSample
        "http://x/y/photo.png?a=b" emptyResponse [1, 2, 3]).2 =
      [Event.bufGet, Event.bufReset, Event.bufPut] :=
  (C8_gzip_encoding confGzip collabOK reqGzip poSample "http://x/y/photo.png?a=b"
    emptyResponse [1, 2, 3] rfl).1 (by decide) (by decide)

/-- Claim C9: the `Content-Disposition` of a successful image response
is `inline; filename="<name>.<ext>"`, where `<ext>` comes from the
fixed per-format table; `<name>` is the last path segment of the source
URL with its extension stripped, or the fixed fallback "image" when the
URL is unparsable or its path has no last segment; in particular
`http://x/y/photo.png?a=b` with target format PNG yields
`inline; filename="photo.png"`. -/
theorem C9_content_disposition (url : String) (t : ImageType) :
    (urlParsePath url = none →
      contentDisposition url t =
        contentDispositionsFmt t contextDispositionFilenameFallback) ∧
    (∀ p, urlParsePath url = some p → baseName p = "" →
      contentDisposition url t =
        contentDispositionsFmt t contextDispositionFilenameFallback) ∧
    (∀ p, urlParsePath url = some p → baseName p ≠ "" →
      contentDisposition url t =
        contentDispositionsFmt t (trimSuffix (baseName p) (goExt (baseName p)))) ∧
    contentDisposition "http://x/y/photo.png?a=b" ImageType.png =
      "inline; filename=\"photo.png\"" := by
  refine ⟨?_, ?_, ?_, ?_⟩
  · intro h
    simp [contentDisposition, h]
  · intro p hp hb
    simp [contentDisposition, hp, hb]
  · intro p hp hb
    simp [contentDisposition, hp, if_neg hb]
  · rfl

/-- Witness for C9: a URL whose path ends in a slash has no last
segment, so the fallback filename is used. -/
theorem C9_content_disposition_witness :
    contentDisposition "http://x/dir/" ImageType.png =
      contentDispositionsFmt ImageType.png contextDispositionFilenameFallback :=
  (C9_content_disposition "http://x/dir/" ImageType.png).2.1 "/dir/" rfl rfl
